import Mathlib

/-!
Verification of the effect-graph composition engine implemented in
`src/context/audio-context.tsx` (the `AudioProvider` component).

The embedding models, directly from the source:

* the 50-entry effect catalog `availableEffects` (each entry's `apply`
  closure is abstracted to the two side channels the engine observes:
  an optional write to `audioRef.current.playbackRate`, and whether the
  closure starts a `requestAnimationFrame` modulation loop);
* `toggleEffect` (the `setActiveEffectIds` updater);
* the derived `activeEffects` list (`availableEffects.filter(e =>
  activeEffectIds.includes(e.id))`);
* the effects-rebuild `useEffect` (the fold over `activeEffects` and the
  trailing playback-rate reset clause);
* the recording `useEffect` together with `downloadProcessedAudio`
  (guards, tap attachment, filename derivation);
* the `Random FX` effect's self-exclusion filter and Fisher–Yates
  shuffle.

Playback rates are decimal literals in the source (`1.3`, `0.8`, ...);
they are embedded exactly, scaled by 100 into `Nat` (`1.3 ↦ 130`,
`1.0 ↦ 100`, ...) so that every statement stays decidable.  The engine
only ever writes and compares these constants, so the scaling is a
faithful injective encoding.
-/

/-- One catalog entry of the `availableEffects` array.  `rateTimes100` is
the value the entry's `apply` closure assigns to
`audioRef.current.playbackRate` (scaled by 100), if any;
`spawnsAnimationTask` records whether `apply` starts a
`requestAnimationFrame` loop (only the 8D Audio entry does). -/
structure AudioEffect where
  id : Nat
  name : String
  rateTimes100 : Option Nat
  spawnsAnimationTask : Bool
deriving DecidableEq

/-- Catalog entry whose `apply` neither writes the playback rate nor
starts an animation loop. -/
def fx (id : Nat) (name : String) : AudioEffect :=
  ⟨id, name, none, false⟩

/-- Catalog entry whose `apply` assigns `audioRef.current.playbackRate`
(the value is given scaled by 100). -/
def rateFx (id : Nat) (name : String) (r : Nat) : AudioEffect :=
  ⟨id, name, some r, false⟩

/-- The 50-entry `availableEffects` array, in source order.  Ids, names,
playback-rate writes (Nightcore 1.3, Vaporwave 0.8, Pitch Shift Up 1.2,
Pitch Shift Down 0.85, Chipmunk 1.5, Monster Voice 0.7, Time Stretch
0.7) and the 8D Audio `requestAnimationFrame` loop are taken from the
source entries.  The two side-channel fields record what each entry's
own `apply` body does.  Random FX (id 47) writes no rate and starts no
loop itself, but it invokes three randomly chosen sub-effects whose
`apply` calls can do either; that delegated, nondeterministic side
channel is not captured by the per-entry fields, so every rate
statement below that quantifies over activation sets carries an
explicit `47 ∉ ids` hypothesis. -/
def availableEffects : List AudioEffect :=
  [ fx 1 "Bass Boost",
    ⟨2, "8D Audio", none, true⟩,
    fx 3 "Reverb",
    rateFx 4 "Nightcore" 130,
    rateFx 5 "Vaporwave" 80,
    fx 6 "Distortion",
    fx 7 "Telephone",
    fx 8 "Lo-Fi",
    rateFx 9 "Pitch Shift Up" 120,
    rateFx 10 "Pitch Shift Down" 85,
    fx 11 "Chorus",
    fx 12 "Tremolo",
    fx 13 "Vibrato",
    fx 14 "Compressor",
    fx 15 "Delay",
    fx 16 "Stereo Widener",
    fx 17 "Vinyl",
    fx 18 "AM Radio",
    fx 19 "Bitcrusher",
    fx 20 "Underwater",
    fx 21 "Auto-Tune",
    fx 22 "Vocoder",
    fx 23 "Harmonizer",
    fx 24 "Voice Changer",
    fx 25 "Whisper",
    fx 26 "Megaphone",
    rateFx 27 "Chipmunk" 150,
    rateFx 28 "Monster Voice" 70,
    fx 29 "Mono to Stereo",
    fx 30 "Binaural Beat",
    fx 31 "Ambisonic",
    fx 32 "HRTF",
    fx 33 "Tape Saturation",
    fx 34 "Cassette",
    fx 35 "VHS Audio",
    fx 36 "Granular",
    fx 37 "Reverse",
    fx 38 "Glitch",
    fx 39 "Stutter",
    rateFx 40 "Time Stretch" 70,
    fx 41 "Formant Shift",
    fx 42 "Autotune Extreme",
    fx 43 "Bluetooth Quality",
    fx 44 "Phone Call",
    fx 45 "Stadium Echo",
    fx 46 "Cathedral",
    fx 47 "Random FX",
    fx 48 "Custom Chain",
    fx 49 "Pitch Stretch",
    fx 50 "Flanger" ]

/-- The ids registered in the catalog, in catalog order. -/
def catalogIds : List Nat :=
  availableEffects.map AudioEffect.id

/-- The `setActiveEffectIds` updater inside `toggleEffect`: remove the id
if present, append it otherwise.  The source performs no catalog
membership check. -/
def toggleEffect (prev : List Nat) (effectId : Nat) : List Nat :=
  if prev.contains effectId then prev.filter (fun id => id != effectId)
  else prev ++ [effectId]

/-- The activation-id list reached by a sequence of `toggleEffect` calls
starting from the initial `useState<number[]>([])`. -/
def applyToggles (ts : List Nat) : List Nat :=
  ts.foldl toggleEffect []

/-- The derived `activeEffects` value:
`availableEffects.filter(e => activeEffectIds.includes(e.id))`. -/
def activeEffects (activeEffectIds : List Nat) : List AudioEffect :=
  availableEffects.filter (fun e => activeEffectIds.contains e.id)

/-- The ids of the stages built by the rebuild fold, in the order the
fold visits them (`activeEffects.forEach`). -/
def chainIds (activeEffectIds : List Nat) : List Nat :=
  (activeEffects activeEffectIds).map AudioEffect.id

/-- The name list of the rebuild's trailing reset clause:
`["Nightcore", "Vaporwave", "Pitch Shift Up", "Pitch Shift Down"]`.
When no active effect carries one of these names the rebuild assigns
`audioRef.current.playbackRate = 1.0`. -/
def rateResetNames : List String :=
  ["Nightcore", "Vaporwave", "Pitch Shift Up", "Pitch Shift Down"]

/-- The playback-rate side effect of one `apply` call: a rate-writing
entry overwrites the rate, every other entry leaves it alone. -/
def applyRate (r : Nat) (e : AudioEffect) : Nat :=
  match e.rateTimes100 with
  | some v => v
  | none => r

/-- The playback rate after the rebuild fold
(`activeEffects.forEach(effect => effect.apply(...))`) has run, starting
from the rate `r` that was in force before the rebuild.  This accounts
for the seven direct rate writers; it does not model the rate writes a
Random FX (id 47) pick can perform, so general rate theorems exclude
id 47 from the activation set. -/
def foldRate (activeEffectIds : List Nat) (r : Nat) : Nat :=
  (activeEffects activeEffectIds).foldl applyRate r

/-- The playback rate after the whole rebuild: the fold runs first, then
the reset clause assigns 1.0 unless some active effect's name is in
`rateResetNames`. -/
def rebuildRate (activeEffectIds : List Nat) (r : Nat) : Nat :=
  if (activeEffects activeEffectIds).any
      (fun e => rateResetNames.contains e.name) then
    foldRate activeEffectIds r
  else 100

/-- Number of `requestAnimationFrame` modulation loops started by one
run of the rebuild fold.  The source never cancels such a loop
(`oscillate` unconditionally re-schedules itself and no handle is kept),
so each rebuild with 8D Audio active starts a fresh one.  A Random FX
(id 47) pick could start one as well; the counter covers only direct
spawns, which is exact for every activation set without id 47 — all
the concrete runs proved below. -/
def tasksSpawned (activeEffectIds : List Nat) : Nat :=
  ((activeEffects activeEffectIds).filter
    (fun e => e.spawnsAnimationTask)).length

/-- The engine state the claims observe: the activation-id list, the
media element's playback rate (scaled by 100) and the number of
animation loops currently running. -/
structure EngineState where
  activeEffectIds : List Nat
  playbackRate : Nat
  runningTasks : Nat
deriving DecidableEq

/-- One run of the effects-rebuild `useEffect`: every existing stage
node is disconnected (which does not stop an animation loop), the fold
re-applies the active effects, and the reset clause settles the playback
rate. -/
def rebuild (s : EngineState) : EngineState :=
  { activeEffectIds := s.activeEffectIds,
    playbackRate := rebuildRate s.activeEffectIds s.playbackRate,
    runningTasks := s.runningTasks + tasksSpawned s.activeEffectIds }

/-- A `toggleEffect` call followed by the rebuild it triggers. -/
def toggleStep (s : EngineState) (i : Nat) : EngineState :=
  rebuild { s with activeEffectIds := toggleEffect s.activeEffectIds i }

/-- The state right after a file is loaded: no active ids, rate 1.0, no
animation loops. -/
def initState : EngineState :=
  ⟨[], 100, 0⟩

/-- Membership in a list after one `toggleEffect` call is unchanged for
every id other than the toggled one. -/
theorem mem_toggleEffect_of_ne (prev : List Nat) (effectId j : Nat)
    (hne : j ≠ effectId) : j ∈ toggleEffect prev effectId ↔ j ∈ prev := by
  unfold toggleEffect
  by_cases h : prev.contains effectId
  · rw [if_pos h]
    simp [List.mem_filter, hne]
  · rw [if_neg h]
    simp [List.mem_append, hne]

/-- The toggled id itself flips its membership. -/
theorem mem_toggleEffect_self (prev : List Nat) (effectId : Nat) :
    effectId ∈ toggleEffect prev effectId ↔ effectId ∉ prev := by
  unfold toggleEffect
  by_cases h : prev.contains effectId
  · rw [if_pos h]
    simp [List.mem_filter, List.elem_iff.mp h]
  · rw [if_neg h]
    simp only [List.mem_append, List.mem_singleton, or_true, true_iff]
    exact fun hm => h (List.elem_iff.mpr hm)

/-- The catalog lists its ids in strictly ascending order. -/
theorem catalogIds_sorted : List.Pairwise (· < ·) catalogIds := by
  decide

/-- The stage chain only depends on which ids are active: it filters the
catalog, so its id list is the ascending enumeration of the active ids
that are registered. -/
theorem chainIds_spec (activeEffectIds : List Nat) :
    List.Pairwise (· < ·) (chainIds activeEffectIds) ∧
    ∀ i, i ∈ chainIds activeEffectIds ↔
      i ∈ activeEffectIds ∧ i ∈ catalogIds := by
  constructor
  · have hcat : List.Pairwise (fun a b : AudioEffect => a.id < b.id)
        availableEffects := by
      have h := catalogIds_sorted
      unfold catalogIds at h
      exact (List.pairwise_map).mp h
    exact (List.pairwise_map).mpr (hcat.filter _)
  · intro i
    unfold chainIds activeEffects catalogIds
    simp only [List.mem_map, List.mem_filter]
    constructor
    · rintro ⟨e, ⟨hmem, hcont⟩, rfl⟩
      exact ⟨List.elem_iff.mp hcont, e, hmem, rfl⟩
    · rintro ⟨hact, e, hmem, rfl⟩
      exact ⟨e, ⟨hmem, List.elem_iff.mpr hact⟩, rfl⟩

/-- C1: for every sequence of `toggleEffect` calls the rebuild fold
visits the active (registered) ids in ascending catalog order — the
chain is sorted, its members are exactly the active registered ids, and
in particular toggling 40 then 3 yields the chain `[3, 40]`. -/
theorem chain_order_matches_sorted_actives :
    (∀ ts : List Nat,
      List.Pairwise (· < ·) (chainIds (applyToggles ts)) ∧
      ∀ i, i ∈ chainIds (applyToggles ts) ↔
        i ∈ applyToggles ts ∧ i ∈ catalogIds) ∧
    chainIds (applyToggles [40, 3]) = [3, 40] := by
  constructor
  · intro ts
    exact chainIds_spec (applyToggles ts)
  · decide

/-- C3 counterexample: id 999 is not in the catalog, yet `toggleEffect`
appends it to the activation list instead of failing — the Activation
Set does change and no error is produced. -/
theorem toggle_unknown_id_mutates_set :
    999 ∉ catalogIds ∧ toggleEffect [] 999 = [999] ∧
    toggleEffect [] 999 ≠ [] := by
  decide

/-- C3 amended: `toggleEffect` performs no catalog check and never
fails; an unregistered id flips its membership in the activation list
like any other id, while the stage chain is unchanged because the
rebuild filters the catalog. -/
theorem toggle_unknown_id_keeps_chain (ids : List Nat) (i : Nat)
    (hi : i ∉ catalogIds) :
    chainIds (toggleEffect ids i) = chainIds ids ∧
    (i ∈ toggleEffect ids i ↔ i ∉ ids) := by
  constructor
  · unfold chainIds activeEffects
    have hfil : availableEffects.filter
          (fun e => (toggleEffect ids i).contains e.id)
        = availableEffects.filter (fun e => ids.contains e.id) := by
      apply List.filter_congr
      intro e he
      have hne : e.id ≠ i := by
        intro hEq
        exact hi (hEq ▸ List.mem_map.mpr ⟨e, he, rfl⟩)
      have hiff : ((toggleEffect ids i).contains e.id = true) ↔
          (ids.contains e.id = true) := by
        rw [List.elem_iff, List.elem_iff]
        exact mem_toggleEffect_of_ne ids i e.id hne
      cases h1 : (toggleEffect ids i).contains e.id <;>
        cases h2 : ids.contains e.id <;> simp_all
    rw [hfil]
  · exact mem_toggleEffect_self ids i

/-- Witness for the C3 amended theorem at the unregistered id 999. -/
theorem toggle_unknown_id_keeps_chain_witness :
    chainIds (toggleEffect [] 999) = chainIds [] ∧
    (999 ∈ toggleEffect [] 999 ↔ 999 ∉ ([] : List Nat)) :=
  toggle_unknown_id_keeps_chain [] 999 (by decide)

/-- C2: activating Chipmunk alone (id 27, whose `apply` writes playback
rate 1.5) leaves the playback rate at 1.0 after the rebuild, because the
reset clause's name list omits Chipmunk and overwrites the fold's write.
The claim expects 1.5 here. -/
theorem chipmunk_rate_reset_overrides :
    (toggleStep initState 27).activeEffectIds = [27] ∧
    (activeEffects [27]).map AudioEffect.rateTimes100 = [some 150] ∧
    (toggleStep initState 27).playbackRate = 100 := by
  decide

/-- C5: toggling 8D Audio (id 2) on and then off restores the
activation list, the stage chain and the playback rate, but the
`requestAnimationFrame` oscillation loop started by the first rebuild is
never cancelled — one task is still running afterwards. -/
theorem toggle_8d_twice_leaks_animation_task :
    (toggleStep (toggleStep initState 2) 2).activeEffectIds =
      initState.activeEffectIds ∧
    chainIds (toggleStep (toggleStep initState 2) 2).activeEffectIds =
      chainIds initState.activeEffectIds ∧
    (toggleStep (toggleStep initState 2) 2).playbackRate =
      initState.playbackRate ∧
    (toggleStep (toggleStep initState 2) 2).runningTasks = 1 := by
  decide

/-- C7 counterexample: with Chipmunk (27) and Monster Voice (28) both
active, the last rate writer of the fold is Monster Voice with 0.7, yet
the rebuild ends with rate 1.0 because the reset clause fires — not
last-writer-wins. -/
theorem rate_last_writer_counterexample :
    (toggleStep (toggleStep initState 27) 28).activeEffectIds =
      [27, 28] ∧
    ((activeEffects [27, 28]).filterMap
      AudioEffect.rateTimes100).getLast? = some 70 ∧
    (toggleStep (toggleStep initState 27) 28).playbackRate = 100 ∧
    (100 : Nat) ≠ 70 := by
  decide

/-- Discharging `getD` through a cons cell of a `getLast?`. -/
theorem getLastD_cons (m : List Nat) (v r : Nat) :
    ((v :: m).getLast?).getD r = (m.getLast?).getD v := by
  induction m generalizing v r with
  | nil => rfl
  | cons w m ih => rw [List.getLast?_cons_cons, ih, ih]

/-- The rebuild fold's playback rate is the last rate value written
along the chain, or the incoming rate when no active effect writes
one. -/
theorem foldl_applyRate (l : List AudioEffect) (r : Nat) :
    l.foldl applyRate r =
      ((l.filterMap AudioEffect.rateTimes100).getLast?).getD r := by
  induction l generalizing r with
  | nil => rfl
  | cons e l ih =>
    rw [List.foldl_cons, ih]
    cases he : e.rateTimes100 with
    | none => simp [List.filterMap_cons, he, applyRate]
    | some v => simp [List.filterMap_cons, he, applyRate, getLastD_cons]

/-- C7 amended: when Random FX (id 47, whose random sub-effects may
themselves write the rate after every direct writer) is not active,
last-writer-wins does hold whenever at least one active effect carries
a name from the reset clause's list — then the rebuild's rate equals
the rate written by the active rate-writing effect that the fold
visits last (the highest active catalog id among the rate writers).
When no such name is active the reset clause overrides the fold with
1.0 instead (see the counterexample). -/
theorem rate_last_writer_wins (ids : List Nat)
    (_h47 : 47 ∉ ids)
    (hsub : (activeEffects ids).any
      (fun e => rateResetNames.contains e.name) = true)
    (_hmulti : 2 ≤ ((activeEffects ids).filter
      (fun e => e.rateTimes100.isSome)).length)
    (v : Nat)
    (hlast : ((activeEffects ids).filterMap
      AudioEffect.rateTimes100).getLast? = some v)
    (r : Nat) :
    rebuildRate ids r = v := by
  unfold rebuildRate
  rw [if_pos hsub]
  unfold foldRate
  rw [foldl_applyRate, hlast]
  rfl

/-- Witness for the C7 amended theorem: Nightcore (4) and Vaporwave (5)
both active; the fold visits Vaporwave last and the rate is 0.8. -/
theorem rate_last_writer_wins_witness :
    47 ∉ ([4, 5] : List Nat) ∧
    ((activeEffects [4, 5]).any
      (fun e => rateResetNames.contains e.name) = true) ∧
    2 ≤ ((activeEffects [4, 5]).filter
      (fun e => e.rateTimes100.isSome)).length ∧
    rebuildRate [4, 5] 100 = 80 :=
  ⟨by decide, by decide, by decide,
    rate_last_writer_wins [4, 5] (by decide) (by decide) (by decide)
      80 (by decide) 100⟩

/-- The per-export session state observed by the claims.  `ready`
collapses the guard `audioRef.current && audioUrl &&
audioContextInitialized`; `recorderCount` counts how many times the
recording `useEffect` has attached a `MediaStreamDestination` tap and
started a `MediaRecorder`; `lastError` is the error surfaced to the
caller — the source's `downloadProcessedAudio` has no error path at
all, so it never becomes `some`. -/
structure SessionState where
  ready : Bool
  isRecording : Bool
  currentTime : Nat
  recorderCount : Nat
  lastError : Option String
deriving DecidableEq

/-- The `downloadProcessedAudio` function: if the guard fails it returns
silently; otherwise it rewinds `audioRef.current.currentTime` to 0 and
calls `setIsRecording(true)`.  The recording `useEffect` (keyed on
`isRecording`) attaches a tap and starts a recorder only when
`isRecording` actually changes from `false` to `true`; setting it to
`true` again is a no-op state update, so no second recorder starts. -/
def downloadProcessedAudio (s : SessionState) : SessionState :=
  if s.ready then
    { s with
      currentTime := 0,
      isRecording := true,
      recorderCount :=
        if s.isRecording then s.recorderCount else s.recorderCount + 1 }
  else s

/-- C4 counterexample: a second export request issued while a recording
is in progress is not rejected — no error is produced — and it is not a
no-op either: the playback position is rewound to 0 (restarting the
capture content mid-recording).  No second recorder starts. -/
theorem second_export_not_rejected :
    downloadProcessedAudio ⟨true, true, 5, 1, none⟩ =
      ⟨true, true, 0, 1, none⟩ ∧
    (downloadProcessedAudio ⟨true, true, 5, 1, none⟩).lastError = none ∧
    (downloadProcessedAudio ⟨true, true, 5, 1, none⟩).currentTime ≠ 5 := by
  decide

/-- C4 amended: a second `downloadProcessedAudio` call while recording
raises no error and attaches no second recorder or tap (the recorder
count is unchanged because `isRecording` is already `true`), but it does
rewind the playback position to 0. -/
theorem second_export_behavior (s : SessionState)
    (hready : s.ready = true) (hrec : s.isRecording = true) :
    downloadProcessedAudio s = { s with currentTime := 0 } ∧
    (downloadProcessedAudio s).recorderCount = s.recorderCount ∧
    (downloadProcessedAudio s).lastError = s.lastError := by
  cases s
  simp_all [downloadProcessedAudio]

/-- Witness for the C4 amended theorem at a concrete mid-recording
state. -/
theorem second_export_behavior_witness :
    downloadProcessedAudio ⟨true, true, 5, 1, none⟩ =
      { (⟨true, true, 5, 1, none⟩ : SessionState) with currentTime := 0 } ∧
    (downloadProcessedAudio ⟨true, true, 5, 1, none⟩).recorderCount =
      (⟨true, true, 5, 1, none⟩ : SessionState).recorderCount ∧
    (downloadProcessedAudio ⟨true, true, 5, 1, none⟩).lastError =
      (⟨true, true, 5, 1, none⟩ : SessionState).lastError :=
  second_export_behavior ⟨true, true, 5, 1, none⟩ rfl rfl

/-- Wiring state left behind by one run of the effects-rebuild
`useEffect`.  `stageNodes` lists the ids stored in `effectNodesRef`
after the run; `gainInput` records what was connected to the master
gain node: `some none` means the source node directly, `some (some i)`
means the node built by effect `i`, and `none` means nothing — the run
aborted before reaching `currentNode.connect(gainNode)`. -/
structure GraphState where
  stageNodes : List Nat
  gainInput : Option (Option Nat)
deriving DecidableEq

/-- The body of the effects-rebuild `useEffect`, parameterized by
whether each active effect's `apply` throws (the source wraps nothing
in `try`/`catch`, so a throw aborts the whole run: the remaining
effects are skipped and the final `connect` to the gain node never
happens).  `stages` accumulates `effectNodesRef`, `current` is the fold
accumulator (`none` = the source node, which was already disconnected
at this point). -/
def rebuildGraphAux : List Nat → Option Nat → List (Nat × Bool) → GraphState
  | stages, current, [] => ⟨stages, some current⟩
  | stages, _current, (i, throws) :: rest =>
      if throws then ⟨stages, none⟩
      else rebuildGraphAux (stages ++ [i]) (some i) rest

/-- One run of the rebuild over the given active effects, starting from
the disconnected source. -/
def rebuildGraph (applies : List (Nat × Bool)) : GraphState :=
  rebuildGraphAux [] none applies

/-- The fallback state the specification requires after a stage
construction failure: source connected directly to the master gain, no
stage nodes. -/
def fallbackGraph : GraphState :=
  ⟨[], some none⟩

/-- C8: when an active effect's `apply` throws mid-chain (here Bass
Boost succeeds, then Reverb throws), the rebuild leaves the first stage
wired in `effectNodesRef` and nothing connected to the master gain —
a partially-wired graph, not the required source-to-gain fallback. -/
theorem stage_failure_leaves_partial_graph :
    rebuildGraph [(1, false), (3, true)] = ⟨[1], none⟩ ∧
    rebuildGraph [(1, false), (3, true)] ≠ fallbackGraph := by
  decide

/-- One iteration of the source's in-place shuffle:
`[copy[i], copy[j]] = [copy[j], copy[i]]`.  Out-of-range indices leave
the list unchanged (the source never produces them; handling them keeps
the model total). -/
def swapAt {α : Type} (l : List α) (i j : Nat) : List α :=
  match l[i]?, l[j]? with
  | some a, some b => (l.set i b).set j a
  | _, _ => l

/-- The Fisher–Yates loop of the Random FX effect:
`for (i = copy.length - 1; i > 0; i--) swap(i, rand(i))`, with `rand i`
standing for `Math.floor(Math.random() * (i + 1))`.  The model lets
`rand` be an arbitrary function, which covers every outcome of the
source's bounded random draw. -/
def fyLoop {α : Type} (rand : Nat → Nat) : Nat → List α → List α
  | 0, l => l
  | i + 1, l => fyLoop rand i (swapAt l (i + 1) (rand (i + 1)))

/-- The three sub-effects selected by Random FX (id 47): filter out id
47, shuffle, take the first three. -/
def randomFxPicks (rand : Nat → Nat) : List AudioEffect :=
  (fyLoop rand
    ((availableEffects.filter (fun e => e.id != 47)).length - 1)
    (availableEffects.filter (fun e => e.id != 47))).take 3

/-- A swap never introduces new elements. -/
theorem mem_of_mem_swapAt {α : Type} (l : List α) (i j : Nat) (x : α)
    (h : x ∈ swapAt l i j) : x ∈ l := by
  unfold swapAt at h
  split at h
  case _ a b hi hj =>
    rcases List.mem_or_eq_of_mem_set h with h1 | rfl
    · rcases List.mem_or_eq_of_mem_set h1 with h2 | rfl
      · exact h2
      · obtain ⟨hn, rfl⟩ := List.getElem?_eq_some.mp hj
        exact List.getElem_mem hn
    · obtain ⟨hn, rfl⟩ := List.getElem?_eq_some.mp hi
      exact List.getElem_mem hn
  case _ => exact h

/-- The shuffle never introduces new elements. -/
theorem mem_of_mem_fyLoop {α : Type} (rand : Nat → Nat) (n : Nat)
    (l : List α) (x : α) (h : x ∈ fyLoop rand n l) : x ∈ l := by
  induction n generalizing l with
  | zero => exact h
  | succ i ih => exact mem_of_mem_swapAt _ _ _ _ (ih _ h)

/-- C9: whatever values the random draws take, the three effects
selected by Random FX never include Random FX itself (id 47) — the
candidate pool excludes it before the shuffle and the shuffle only
permutes. -/
theorem random_fx_excludes_self (rand : Nat → Nat) :
    (randomFxPicks rand).all (fun e => e.id != 47) = true := by
  rw [List.all_eq_true]
  intro e he
  unfold randomFxPicks at he
  have h1 := List.mem_of_mem_take he
  have h2 := mem_of_mem_fyLoop _ _ _ _ h1
  exact (List.mem_filter.mp h2).2

/-- Character-level model of `replace(/\s+/g, "-")`: every maximal run
of whitespace becomes a single hyphen.  `inRun` tells whether the
previous character was part of a whitespace run. -/
def collapseWsAux : Bool → List Char → List Char
  | _, [] => []
  | inRun, c :: rest =>
      if c.isWhitespace then
        if inRun then collapseWsAux true rest
        else '-' :: collapseWsAux true rest
      else c :: collapseWsAux false rest

/-- The per-name transformation of the filename derivation:
`effect.name.toLowerCase().replace(/\s+/g, "-")`. -/
def slug (name : String) : String :=
  ⟨collapseWsAux false (name.data.map Char.toLower)⟩

/-- The `"-"`-join of the transformed active effect names
(`.join("-")`). -/
def hyphenJoin : List String → String
  | [] => ""
  | [s] => s
  | s :: rest => s ++ "-" ++ hyphenJoin rest

/-- Model of `name.split(".")[0]`: the characters before the first
dot (the whole name when it has no dot, empty when it starts with a
dot). -/
def baseNameOf (n : String) : String :=
  ⟨n.data.takeWhile (fun c => c != '.')⟩

/-- Model of `audioFile?.name?.split(".")[0] || "audio"`: the `||`
falls back to `"audio"` both when there is no file name and when the
first split segment is the empty string (empty strings are falsy). -/
def originalNameOf : Option String → String
  | some n => if baseNameOf n = "" then "audio" else baseNameOf n
  | none => "audio"

/-- The effects part of the filename: the joined slugs when any effect
is active, `"original"` otherwise. -/
def effectNamesPart : List String → String
  | [] => "original"
  | names => hyphenJoin (names.map slug)

/-- The filename built in `mediaRecorder.onstop`:
`` `${originalName}-${effectNames}.mp3` `` — the `.mp3` suffix is
appended unconditionally, whatever container the recorder produced. -/
def deriveFilename (fileName : Option String) (names : List String) : String :=
  originalNameOf fileName ++ "-" ++ effectNamesPart names ++ ".mp3"

/-- The filename of an export performed with the given active ids: the
names are read off `activeEffects` in chain order. -/
def exportFilename (fileName : Option String)
    (activeEffectIds : List Nat) : String :=
  deriveFilename fileName
    ((activeEffects activeEffectIds).map AudioEffect.name)

/-- C6: exporting `song.mp3` with Bass Boost and 8D Audio active yields
`song-bass-boost-8d-audio.mp3`; with nothing active it yields
`song-original.mp3`. -/
theorem export_filename_examples :
    exportFilename (some "song.mp3") (applyToggles [1, 2]) =
      "song-bass-boost-8d-audio.mp3" ∧
    exportFilename (some "song.mp3") (applyToggles []) =
      "song-original.mp3" := by
  decide

/-- C10 counterexample: for the source name `".mp3"` the substring
before the first dot is empty, but the derived filename uses the
`"audio"` fallback (`""` is falsy in the `||`), not the empty base the
claim prescribes. -/
theorem hidden_file_basename_counterexample :
    baseNameOf ".mp3" = "" ∧
    exportFilename (some ".mp3") [] = "audio-original.mp3" ∧
    exportFilename (some ".mp3") [] ≠ "-original.mp3" := by
  decide

/-- C10 amended: every export filename ends in `.mp3`; the base name is
the part of the source name before its first dot (so `my.song.mp3`
yields `my`) whenever that part is nonempty, and the fallback `audio`
is used both when no file name is available and when that part is
empty. -/
theorem export_filename_shape :
    baseNameOf "my.song.mp3" = "my" ∧
    (∀ fileName activeEffectIds, ∃ t,
      exportFilename fileName activeEffectIds = t ++ ".mp3") ∧
    (∀ n activeEffectIds, baseNameOf n ≠ "" → ∃ t,
      exportFilename (some n) activeEffectIds =
        baseNameOf n ++ "-" ++ t) ∧
    (∀ n activeEffectIds, baseNameOf n = "" → ∃ t,
      exportFilename (some n) activeEffectIds = "audio" ++ "-" ++ t) ∧
    (∀ activeEffectIds, ∃ t,
      exportFilename none activeEffectIds = "audio" ++ "-" ++ t) := by
  refine ⟨by decide, ?_, ?_, ?_, ?_⟩
  · intro fileName activeEffectIds
    exact ⟨originalNameOf fileName ++ "-" ++
      effectNamesPart ((activeEffects activeEffectIds).map
        AudioEffect.name), rfl⟩
  · intro n activeEffectIds hb
    refine ⟨effectNamesPart ((activeEffects activeEffectIds).map
      AudioEffect.name) ++ ".mp3", ?_⟩
    show originalNameOf (some n) ++ "-" ++ _ ++ ".mp3" = _
    simp only [originalNameOf, if_neg hb]
    rw [String.append_assoc]
  · intro n activeEffectIds hb
    refine ⟨effectNamesPart ((activeEffects activeEffectIds).map
      AudioEffect.name) ++ ".mp3", ?_⟩
    show originalNameOf (some n) ++ "-" ++ _ ++ ".mp3" = _
    simp only [originalNameOf, if_pos hb]
    rw [String.append_assoc]
  · intro activeEffectIds
    refine ⟨effectNamesPart ((activeEffects activeEffectIds).map
      AudioEffect.name) ++ ".mp3", ?_⟩
    show originalNameOf none ++ "-" ++ _ ++ ".mp3" = _
    simp only [originalNameOf]
    rw [String.append_assoc]

/-- Witness for the C10 amended theorem at the names `my.song.mp3` and
`.mp3`. -/
theorem export_filename_shape_witness :
    (∃ t, exportFilename (some "my.song.mp3") [] =
      baseNameOf "my.song.mp3" ++ "-" ++ t) ∧
    (∃ t, exportFilename (some ".mp3") [] = "audio" ++ "-" ++ t) :=
  ⟨export_filename_shape.2.2.1 "my.song.mp3" [] (by decide),
   export_filename_shape.2.2.2.1 ".mp3" [] (by decide)⟩
